import Mathlib

/-!
Shallow embedding of the CO2-emissions dashboard's data pipeline
(`src/data_processing.py`, class `CO2DataProcessor`) and chart builder
(`src/visualizations.py`, class `CO2Visualizer`).

Modelling decisions, stated once:

* A pandas `DataFrame` is a `List Row`; every column is `Option`-typed,
  `none` playing the role of pandas null (`NaN`/`NaT`).
* The CSV cells for `date` and `value` are modelled post-coercion: the
  source applies `pd.to_datetime(..., errors='coerce')` and
  `pd.to_numeric(..., errors='coerce')`, whose effect is exactly
  "parseable input becomes a value, anything else becomes null", so a raw
  cell is an `Option Date` / `Option ℚ` and the coercion step of
  `clean_data` is the identity on these fields (re-running the coercions
  on already-coerced columns is also the identity in pandas).
* Emission amounts are `ℚ`.  The only places where IEEE-float behaviour
  is observable in the source are the divisions (growth rate, per-capita,
  intensity) and `mean`; those results are modelled by `FVal`
  (nan / +inf / -inf / finite rational), with nan playing pandas null.
* pandas `groupby(keys)` silently drops rows whose key is null, and
  `Series.sum` / `groupby(...).sum()` treats null values as 0 (default
  `min_count=0`); `mean` skips nulls.  All of this is modelled explicitly.
* pandas sorts group keys and `sort_values` uses an unstable quicksort,
  so the relative order of equal-valued rows after the descending
  `sort_values(...).head(n)` is unspecified (the spec disclaims tie
  order explicitly).  The model enumerates group keys in first-occurrence
  order via `List.dedup`-style helpers and sorts with a deterministic
  insertion sort; only the unspecified tie order differs.
-/

namespace CO2

/-! ### Generic list utilities: insertion sort keyed by a boolean relation -/

def insertBy (le : α → α → Bool) (x : α) : List α → List α
  | [] => [x]
  | y :: ys => if le x y then x :: y :: ys else y :: insertBy le x ys

def isort (le : α → α → Bool) (l : List α) : List α :=
  l.foldr (insertBy le) []

theorem mem_insertBy (le : α → α → Bool) (x : α) (l : List α) (a : α) :
    a ∈ insertBy le x l ↔ a = x ∨ a ∈ l := by
  induction l with
  | nil => simp [insertBy]
  | cons y ys ih =>
      by_cases h : le x y
      · simp [insertBy, h]
      · simp [insertBy, h, ih]
        tauto

theorem mem_isort (le : α → α → Bool) (l : List α) (a : α) :
    a ∈ isort le l ↔ a ∈ l := by
  induction l with
  | nil => simp [isort]
  | cons y ys ih =>
      simp only [isort, List.foldr_cons] at *
      rw [mem_insertBy, ih, List.mem_cons]

def SortedBy (le : α → α → Bool) (l : List α) : Prop :=
  l.Pairwise (fun a b => le a b = true)

theorem sortedBy_insertBy (le : α → α → Bool)
    (htot : ∀ a b, le a b = true ∨ le b a = true)
    (htrans : ∀ a b c, le a b = true → le b c = true → le a c = true)
    (x : α) (l : List α) (h : SortedBy le l) : SortedBy le (insertBy le x l) := by
  induction l with
  | nil => simp [insertBy, SortedBy]
  | cons y ys ih =>
      rcases h with _ | ⟨hy, hys⟩
      by_cases hxy : le x y
      · simp only [insertBy, hxy, ite_true]
        refine List.Pairwise.cons ?_ (List.Pairwise.cons hy hys)
        intro b hb
        rcases List.mem_cons.mp hb with rfl | hb
        · exact hxy
        · exact htrans x y b hxy (hy b hb)
      · simp only [insertBy, hxy, if_neg, Bool.false_eq_true, not_false_eq_true, ite_false]
        refine List.Pairwise.cons ?_ (ih hys)
        intro b hb
        rcases (mem_insertBy le x ys b).mp hb with rfl | hb
        · rcases htot b y with h1 | h1
          · exact absurd h1 hxy
          · exact h1
        · exact hy b hb

theorem sortedBy_isort (le : α → α → Bool)
    (htot : ∀ a b, le a b = true ∨ le b a = true)
    (htrans : ∀ a b c, le a b = true → le b c = true → le a c = true)
    (l : List α) : SortedBy le (isort le l) := by
  induction l with
  | nil => simp [isort, SortedBy]
  | cons y ys ih =>
      simpa [isort] using sortedBy_insertBy le htot htrans y _ ih

/-! ### Python `str.strip()` -/

def stripL (l : List Char) : List Char := l.dropWhile Char.isWhitespace

def stripR (l : List Char) : List Char :=
  (l.reverse.dropWhile Char.isWhitespace).reverse

def stripChars (l : List Char) : List Char := stripR (stripL l)

/-- `str.strip()`: remove leading and trailing whitespace. -/
def pyStrip (s : String) : String := ⟨stripChars s.data⟩

theorem dropWhile_dropWhile (p : α → Bool) (l : List α) :
    (l.dropWhile p).dropWhile p = l.dropWhile p := by
  induction l with
  | nil => simp
  | cons a t ih =>
      by_cases h : p a
      · simp [List.dropWhile_cons, h, ih]
      · simp [List.dropWhile_cons, h]

theorem dropWhile_eq_self_of_prefix (p : α → Bool) {l m : List α}
    (hpre : m <+: l) (hl : l.dropWhile p = l) : m.dropWhile p = m := by
  cases m with
  | nil => simp
  | cons a t =>
      rcases hpre with ⟨s, rfl⟩
      rw [List.cons_append, List.dropWhile_cons] at hl
      by_cases h : p a
      · rw [if_pos h] at hl
        have hle : ((t ++ s).dropWhile p).length ≤ (t ++ s).length :=
          (List.IsSuffix.sublist (List.dropWhile_suffix p)).length_le
        rw [hl, List.length_cons] at hle
        omega
      · rw [List.dropWhile_cons, if_neg h]

theorem stripR_pre (l : List Char) : stripR l <+: l := by
  unfold stripR
  conv_rhs => rw [← l.reverse_reverse]
  exact List.reverse_prefix.mpr (List.dropWhile_suffix _)

theorem stripL_stripL (l : List Char) : stripL (stripL l) = stripL l :=
  dropWhile_dropWhile _ l

theorem stripR_stripR (l : List Char) : stripR (stripR l) = stripR l := by
  unfold stripR
  rw [List.reverse_reverse, dropWhile_dropWhile]

theorem stripL_stripR_stripL (l : List Char) :
    stripL (stripR (stripL l)) = stripR (stripL l) :=
  dropWhile_eq_self_of_prefix _ (stripR_pre _) (stripL_stripL l)

theorem stripChars_idem (l : List Char) :
    stripChars (stripChars l) = stripChars l := by
  unfold stripChars
  rw [stripL_stripR_stripL, stripR_stripR]

theorem pyStrip_idem (s : String) : pyStrip (pyStrip s) = pyStrip s := by
  unfold pyStrip
  exact congrArg String.mk (stripChars_idem s.data)

/-! ### Data model -/

/-- A calendar date, as produced by `pd.to_datetime(..., format='%d/%m/%Y')`. -/
structure Date where
  day : Nat
  month : Nat
  year : Int
deriving DecidableEq, Repr

/-- One DataFrame row.  Every column is `Option`-typed; `none` is pandas
null.  `year` and `month` are the derived columns added by `clean_data`;
on a raw table their content is irrelevant because `clean_data`
unconditionally overwrites them (`df['year'] = df['date'].dt.year`). -/
structure Row where
  country : Option String
  sector : Option String
  date : Option Date
  year : Option Int
  month : Option Nat
  value : Option ℚ
deriving DecidableEq, Repr

/-! ### `CO2DataProcessor.clean_data` -/

/-- The type-coercion half of `clean_data`: `pd.to_datetime` /
`pd.to_numeric` are the identity on already-coerced cells (see header),
and `df['year'] = df['date'].dt.year`, `df['month'] = df['date'].dt.month`
derive the year/month columns (null date gives null year/month). -/
def coerceRow (r : Row) : Row :=
  { r with year := r.date.map Date.year, month := r.date.map Date.month }

/-- `df.dropna(subset=['country', 'date', 'value'])` membership test. -/
def rowValid (r : Row) : Bool :=
  r.country.isSome && r.date.isSome && r.value.isSome

/-- `df['country'] = df['country'].str.strip()` and likewise for `sector`
(null cells stay null). -/
def stripRow (r : Row) : Row :=
  { r with country := r.country.map pyStrip, sector := r.sector.map pyStrip }

/-- `clean_data`: coerce types, derive `year`/`month`, drop rows with a
null critical field, strip `country`/`sector`.  The second component is
`removed_rows = initial_rows - len(df)`, which the source merely prints
(an informational side effect, never an error). -/
def clean_data (raw : List Row) : List Row × Nat :=
  (((raw.map coerceRow).filter rowValid).map stripRow,
   (raw.map coerceRow).length - ((raw.map coerceRow).filter rowValid).length)

/-! ### IEEE-float observables: nan / infinities / finite rational -/

/-- Result type for the source's float divisions and means: pandas null
(`NaN`), the two infinities, or a finite value. -/
inductive FVal where
  | nan
  | inf
  | neginf
  | fin (q : ℚ)
deriving DecidableEq, Repr

/-- Float division `a / b` of two nullable columns: null propagates;
division by zero follows IEEE semantics (`0/0 = NaN`, `x/0 = ±inf`). -/
def fdivO : Option ℚ → Option ℚ → FVal
  | none, _ => .nan
  | _, none => .nan
  | some a, some b =>
      if b = 0 then
        if a = 0 then .nan else if 0 < a then .inf else .neginf
      else .fin (a / b)

/-- Float addition (used by `fsum` for the pandas `mean`). -/
def fadd : FVal → FVal → FVal
  | .nan, _ => .nan
  | _, .nan => .nan
  | .inf, .neginf => .nan
  | .neginf, .inf => .nan
  | .inf, _ => .inf
  | _, .inf => .inf
  | .neginf, _ => .neginf
  | _, .neginf => .neginf
  | .fin a, .fin b => .fin (a + b)

def fsum (l : List FVal) : FVal := l.foldl fadd (.fin 0)

/-- Division of a float by a positive count (the `mean` denominator). -/
def fdivNat : FVal → Nat → FVal
  | .nan, _ => .nan
  | .inf, _ => .inf
  | .neginf, _ => .neginf
  | .fin q, k => .fin (q / (k : ℚ))

/-- pandas `Series.mean()`: skip nulls; mean of an all-null or empty
series is null. -/
def fmean (l : List FVal) : FVal :=
  let ws := l.filter (fun v => v ≠ FVal.nan)
  if ws.isEmpty then .nan else fdivNat (fsum ws) ws.length

/-! ### groupby/sum helpers -/

/-- A null value contributes 0 to a pandas sum (default `min_count=0`). -/
def valD (r : Row) : ℚ := r.value.getD 0

/-- Group keys of `df.groupby('country')`: the distinct non-null
countries (pandas drops null keys; key order only affects the tie order
that the spec disclaims). -/
def countryKeys (l : List Row) : List String :=
  (l.filterMap Row.country).dedup

/-- Sum of `value` over the rows of one country (null values count 0). -/
def countrySum (l : List Row) (c : String) : ℚ :=
  ((l.filter (fun r => r.country = some c)).map valD).sum

/-- `df.groupby('country')['value'].sum().reset_index()`. -/
def groupByCountrySum (l : List Row) : List (String × ℚ) :=
  (countryKeys l).map (fun c => (c, countrySum l c))

/-- Group keys of `df.groupby('sector')` (null sectors dropped). -/
def sectorKeys (l : List Row) : List String :=
  (l.filterMap Row.sector).dedup

def sectorSum (l : List Row) (s : String) : ℚ :=
  ((l.filter (fun r => r.sector = some s)).map valD).sum

/-- `df.groupby(['country','year'])` keeps only rows where both keys are
non-null; this is the summed value of one such group. -/
def cySum (l : List Row) (c : String) (y : Int) : ℚ :=
  ((l.filter (fun r => r.country = some c && r.year = some y)).map valD).sum

/-- Descending order on the summed value, for
`sort_values(ascending=False)` on a `(key, total)` table. -/
def descQ (a b : String × ℚ) : Bool := decide (b.2 ≤ a.2)

/-! ### `CO2DataProcessor.get_top_emitters` / `get_sectoral_breakdown` -/

/-- `get_top_emitters(n, by_year)`.  `if by_year:` is Python truthiness:
`None` and `0` both skip the year filter. -/
def get_top_emitters (l : List Row) (n : Nat) (by_year : Option Int) : List (String × ℚ) :=
  let df := match by_year with
    | some y => if y ≠ 0 then l.filter (fun r => r.year = some y) else l
    | none => l
  (isort descQ (groupByCountrySum df)).take n

/-- `get_sectoral_breakdown(country)`.  `if country:` is Python
truthiness: `None` and the empty string both skip the country filter. -/
def get_sectoral_breakdown (l : List Row) (country : Option String) : List (String × ℚ) :=
  let df := match country with
    | some c => if c ≠ "" then l.filter (fun r => r.country = some c) else l
    | none => l
  isort descQ ((sectorKeys df).map (fun s => (s, sectorSum df s)))

/-! ### `CO2DataProcessor.add_derived_metrics` -/

/-- A row of the optional population table (columns `country`, `year`,
`population`). -/
structure PopRow where
  country : Option String
  year : Option Int
  population : Option ℚ
deriving DecidableEq, Repr

/-- A row of the optional GDP table (columns `country`, `year`, `gdp`). -/
structure GdpRow where
  country : Option String
  year : Option Int
  gdp : Option ℚ
deriving DecidableEq, Repr

/-- Output row of `add_derived_metrics`: the input columns plus
`total_emissions`, and — only when the corresponding table was supplied —
the joined column and the derived ratio (`none` models the column being
absent as well as a null cell; the ratio columns carry float semantics). -/
structure RowD where
  country : Option String
  sector : Option String
  date : Option Date
  year : Option Int
  month : Option Nat
  value : Option ℚ
  total_emissions : Option ℚ
  population : Option ℚ
  emissions_per_capita : Option FVal
  gdp : Option ℚ
  emission_intensity : Option FVal
deriving DecidableEq, Repr

/-- The first half of `add_derived_metrics`: compute the per
`(country, year)` totals and left-merge them back.  The right table of
the merge is `groupby(['country','year']).sum()`, so its keys are unique
and every row with non-null keys finds exactly its own group's total;
rows with a null key merge to null (pandas merge never matches nulls). -/
def addTotals (l : List Row) : List RowD :=
  l.map (fun r =>
    { country := r.country, sector := r.sector, date := r.date,
      year := r.year, month := r.month, value := r.value,
      total_emissions :=
        match r.country, r.year with
        | some c, some y => some (cySum l c y)
        | _, _ => none,
      population := none, emissions_per_capita := none,
      gdp := none, emission_intensity := none })

/-- Left merge of the population table on `(country, year)` followed by
`df['emissions_per_capita'] = df['total_emissions'] / df['population']`.
A row with no match (or a null key) keeps one copy with null
`population`; a row with several matches is replicated, as in pandas. -/
def mergePop (df : List RowD) (pt : List PopRow) : List RowD :=
  df.flatMap (fun r =>
    let ms := pt.filter (fun p =>
      match r.country, r.year, p.country, p.year with
      | some c, some y, some pc, some py => c = pc && y = py
      | _, _, _, _ => false)
    if ms.isEmpty then
      [{ r with population := none,
                emissions_per_capita := some (fdivO r.total_emissions none) }]
    else
      ms.map (fun p =>
        { r with population := p.population,
                 emissions_per_capita := some (fdivO r.total_emissions p.population) }))

/-- Same pattern for the GDP table → `emission_intensity`. -/
def mergeGdp (df : List RowD) (gt : List GdpRow) : List RowD :=
  df.flatMap (fun r =>
    let ms := gt.filter (fun g =>
      match r.country, r.year, g.country, g.year with
      | some c, some y, some gc, some gy => c = gc && y = gy
      | _, _, _, _ => false)
    if ms.isEmpty then
      [{ r with gdp := none,
                emission_intensity := some (fdivO r.total_emissions none) }]
    else
      ms.map (fun g =>
        { r with gdp := g.gdp,
                 emission_intensity := some (fdivO r.total_emissions g.gdp) }))

/-- `add_derived_metrics(population_data, gdp_data)` on a table. -/
def add_derived_metrics (l : List Row)
    (population_data : Option (List PopRow))
    (gdp_data : Option (List GdpRow)) : List RowD :=
  let df := addTotals l
  let df := match population_data with
    | some pt => mergePop df pt
    | none => df
  match gdp_data with
  | some gt => mergeGdp df gt
  | none => df

/-! ### `CO2DataProcessor.calculate_growth_rates` -/

/-- One row of the `yearly` table after the shift and the growth-rate
column: `(country, year, value, prev_year_emissions, growth_rate)`. -/
structure GrowthRow where
  country : String
  year : Int
  value : ℚ
  prev : Option ℚ
  growth : FVal
deriving DecidableEq, Repr

/-- `(value - prev) / prev * 100` in float arithmetic: null `prev` (the
shift's first row of a country) gives null; `prev = 0` gives `NaN` when
the numerator is 0 and a signed infinity otherwise (multiplying by 100
keeps the sign). -/
def growthOf (prev : Option ℚ) (v : ℚ) : FVal :=
  match prev with
  | none => .nan
  | some p =>
      if p = 0 then
        if v - p = 0 then .nan else if 0 < v - p then .inf else .neginf
      else .fin ((v - p) / p * 100)

/-- Ascending order on years, for `sort_values(['country','year'])`. -/
def ascInt (a b : Int) : Bool := decide (a ≤ b)

/-- The distinct countries owning at least one `(country, year)` group
(both keys non-null, as `groupby(['country','year'])` requires). -/
def cyCountries (l : List Row) : List String :=
  (l.filterMap (fun r =>
    match r.country, r.year with
    | some c, some _ => some c
    | _, _ => none)).dedup

/-- The distinct years of one country's groups, sorted ascending. -/
def yearsAsc (l : List Row) (c : String) : List Int :=
  isort ascInt ((l.filterMap (fun r =>
    if r.country = some c then r.year else none)).dedup)

/-- `groupby('country')['value'].shift(1)` within one (already
year-sorted) country block, fused with the growth-rate column. -/
def withPrev (l : List Row) (c : String) : List Int → Option ℚ → List GrowthRow
  | [], _ => []
  | y :: ys, prev =>
      let v := cySum l c y
      { country := c, year := y, value := v, prev := prev,
        growth := growthOf prev v } :: withPrev l c ys (some v)

/-- `calculate_growth_rates`: group by `(country, year)`, sum, sort by
country then year, shift within each country, compute the growth
column.  All per-entry claims are independent of the relative order of
the country blocks. -/
def calculate_growth_rates (l : List Row) : List GrowthRow :=
  (cyCountries l).flatMap (fun c => withPrev l c (yearsAsc l c) none)

/-! ### `CO2Visualizer` chart builder -/

/-- The pivoted country × year matrix of `create_heatmap`: `z[i][j]` is
the summed value of country `rows[i]` in year `cols[j]`, or `none` (a
gap, `hoverongaps=False`) when that country has no observation in that
year. -/
structure Heatmap where
  rows : List String
  cols : List Int
  z : List (List (Option ℚ))
deriving DecidableEq, Repr

/-- A chart specification: the chart kind together with the aggregated
table bound to its axes and its title (color scales, labels and layout
hints carry no data and are omitted). -/
inductive Chart where
  | hbar (rows : List (String × ℚ)) (title : String)
  | line (rows : List (Int × ℚ)) (title : String)
  | multiline (rows : List ((Int × String) × ℚ)) (title : String)
  | sbar (rows : List (String × ℚ)) (title : String)
  | area (rows : List ((Int × String) × ℚ)) (title : String)
  | choropleth (rows : List ((String × Int) × ℚ)) (title : String)
  | growthbar (rows : List (String × FVal)) (title : String)
  | pie (rows : List (String × ℚ)) (title : String)
  | cmpbar (rows : List (String × FVal)) (title : String)
  | heat (hm : Heatmap) (title : String)
deriving DecidableEq, Repr

/-- The Python error raised by `create_comparison_chart` when no branch
assigned `data` (an `UnboundLocalError` at the `px.bar(data, ...)` call). -/
inductive PyError where
  | unboundLocal
deriving DecidableEq, Repr

/-- `CO2Visualizer`: holds the processed table (`self.data`) and the
styling constants set in `__init__`. -/
structure Visualizer where
  data : List Row
  color_scale : String
deriving DecidableEq, Repr

/-- `df['country'].isin(countries)`: null never matches. -/
def inCountries (cs : List String) (r : Row) : Bool :=
  match r.country with
  | some c => decide (c ∈ cs)
  | none => false

/-- `df.groupby('year')` keys: distinct non-null years, sorted. -/
def yearKeys (l : List Row) : List Int :=
  isort ascInt ((l.filterMap Row.year).dedup)

def yearSum (l : List Row) (y : Int) : ℚ :=
  ((l.filter (fun r => r.year = some y)).map valD).sum

/-- `df.groupby(['year','country'])` keys (both non-null). -/
def ycKeys (l : List Row) : List (Int × String) :=
  (l.filterMap (fun r =>
    match r.year, r.country with
    | some y, some c => some (y, c)
    | _, _ => none)).dedup

def ycSum (l : List Row) (y : Int) (c : String) : ℚ :=
  ((l.filter (fun r => r.year = some y && r.country = some c)).map valD).sum

/-- `df.groupby(['year','sector'])` keys (both non-null). -/
def ysKeys (l : List Row) : List (Int × String) :=
  (l.filterMap (fun r =>
    match r.year, r.sector with
    | some y, some s => some (y, s)
    | _, _ => none)).dedup

def ysSum (l : List Row) (y : Int) (s : String) : ℚ :=
  ((l.filter (fun r => r.year = some y && r.sector = some s)).map valD).sum

/-- `df.groupby(['country','year'])` keys (both non-null). -/
def cyKeys (l : List Row) : List (String × Int) :=
  (l.filterMap (fun r =>
    match r.country, r.year with
    | some c, some y => some (c, y)
    | _, _ => none)).dedup

/-- `groupby('country')['value'].mean()`: nulls skipped; an all-null or
empty group has a null mean. -/
def countryMean (l : List Row) (c : String) : FVal :=
  let vs := (l.filter (fun r => r.country = some c)).filterMap Row.value
  if vs.isEmpty then .nan else .fin (vs.sum / (vs.length : ℚ))

/-- Key order of `sort_values('growth_rate', ascending=False)` with the
default `na_position='last'`: null sorts after every number, so it acts
as the bottom element of the descending order. -/
def fleB : FVal → FVal → Bool
  | .nan, _ => true
  | _, .nan => false
  | .neginf, _ => true
  | _, .neginf => false
  | .fin a, .fin b => decide (a ≤ b)
  | .fin _, .inf => true
  | .inf, .inf => true
  | .inf, .fin _ => false

def descF (a b : String × FVal) : Bool := fleB b.2 a.2

/-- `create_top_emitters_bar(n, year)`: optional truthy year filter,
group by country, sum, sort descending, head `n`. -/
def create_top_emitters_bar (v : Visualizer) (n : Nat) (year : Option Int) :
    Visualizer × Chart :=
  let df := match year with
    | some y => if y ≠ 0 then v.data.filter (fun r => r.year = some y) else v.data
    | none => v.data
  let title := match year with
    | some y => if y ≠ 0 then
        "Top " ++ toString n ++ " CO2 Emitting Countries - " ++ toString y
      else "Top " ++ toString n ++ " CO2 Emitting Countries (All Time)"
    | none => "Top " ++ toString n ++ " CO2 Emitting Countries (All Time)"
  (v, .hbar ((isort descQ (groupByCountrySum df)).take n) title)

/-- `create_global_trend()`: group by year, sum. -/
def create_global_trend (v : Visualizer) : Visualizer × Chart :=
  (v, .line ((yearKeys v.data).map (fun y => (y, yearSum v.data y)))
        "Global CO2 Emissions Trend")

/-- `create_country_trends(countries)`: isin filter, group by
`(year, country)`, sum. -/
def create_country_trends (v : Visualizer) (countries : List String) :
    Visualizer × Chart :=
  let df := v.data.filter (inCountries countries)
  (v, .multiline ((ycKeys df).map (fun k => (k, ycSum df k.1 k.2)))
        "CO2 Emissions Trend by Country")

/-- `create_sectoral_breakdown(country)`: the grouping block is the
same code as `get_sectoral_breakdown` (duplicated verbatim in the
source), applied to `self.data`. -/
def create_sectoral_breakdown (v : Visualizer) (country : Option String) :
    Visualizer × Chart :=
  let title := match country with
    | some c => if c ≠ "" then "CO2 Emissions by Sector - " ++ c
        else "Global CO2 Emissions by Sector"
    | none => "Global CO2 Emissions by Sector"
  (v, .sbar (get_sectoral_breakdown v.data country) title)

/-- `create_sectoral_trend()`: group by `(year, sector)`, sum. -/
def create_sectoral_trend (v : Visualizer) : Visualizer × Chart :=
  (v, .area ((ysKeys v.data).map (fun k => (k, ysSum v.data k.1 k.2)))
        "CO2 Emissions by Sector Over Time")

/-- `create_animated_map()`: group by `(country, year)`, sum. -/
def create_animated_map (v : Visualizer) : Visualizer × Chart :=
  (v, .choropleth ((cyKeys v.data).map (fun k => (k, cySum v.data k.1 k.2)))
        "Global CO2 Emissions Over Time")

/-- The growth-rate block of `create_growth_rate_chart` (lines 161-165)
duplicates `calculate_growth_rates` (lines 112-118) verbatim, so the
model shares the definition.  `recent_years = yearly['year'].max() - 5`
and the filter keeps `year >= recent_years`. -/
def recentGrowth (l : List Row) : List GrowthRow :=
  let yearly := calculate_growth_rates l
  match (yearly.map GrowthRow.year).max? with
  | some m => yearly.filter (fun e => decide (m - 5 ≤ e.year))
  | none => []

/-- `recent.groupby('country')['growth_rate'].mean().reset_index()`. -/
def avgGrowth (l : List Row) : List (String × FVal) :=
  let recent := recentGrowth l
  ((recent.map GrowthRow.country).dedup).map (fun c =>
    (c, fmean ((recent.filter (fun e => e.country = c)).map GrowthRow.growth)))

/-- `create_growth_rate_chart(n)`: average recent growth per country,
sort descending (nulls last), head `n`. -/
def create_growth_rate_chart (v : Visualizer) (n : Nat) : Visualizer × Chart :=
  (v, .growthbar ((isort descF (avgGrowth v.data)).take n)
        ("Top " ++ toString n ++
         " Countries by Average CO2 Growth Rate (Last 5 Years)"))

/-- `create_pie_chart(countries, year)`: optional truthy year filter,
isin filter, group by country, sum. -/
def create_pie_chart (v : Visualizer) (countries : List String)
    (year : Option Int) : Visualizer × Chart :=
  let df : List Row := match year with
    | some y => if y ≠ 0 then v.data.filter (fun r => r.year = some y) else v.data
    | none => v.data
  let title := match year with
    | some y => if y ≠ 0 then "CO2 Emissions Share - " ++ toString y
        else "CO2 Emissions Share (All Time)"
    | none => "CO2 Emissions Share (All Time)"
  let dff := df.filter (inCountries countries)
  (v, .pie (groupByCountrySum dff) title)

/-- `create_comparison_chart(countries, metric)`: only the
`'total'` and `'average'` branches assign `data`; any other metric
reaches `px.bar(data, ...)` with `data` unbound and raises. -/
def create_comparison_chart (v : Visualizer) (countries : List String)
    (metric : String) : Visualizer × Except PyError Chart :=
  let df := v.data.filter (inCountries countries)
  if metric = "total" then
    (v, .ok (.cmpbar ((countryKeys df).map (fun c => (c, FVal.fin (countrySum df c))))
          "Total CO2 Emissions Comparison"))
  else if metric = "average" then
    (v, .ok (.cmpbar ((countryKeys df).map (fun c => (c, countryMean df c)))
          "Average CO2 Emissions Comparison"))
  else
    (v, .error .unboundLocal)

/-- `create_heatmap(countries, n_years)`: isin filter, trailing window
`year >= max_year - n_years + 1`, group by `(country, year)`, pivot.
A null year never passes the window comparison; an empty or all-null
year column makes `max_year` null and every comparison false. -/
def create_heatmap (v : Visualizer) (countries : List String) (n_years : Int) :
    Visualizer × Chart :=
  let df := v.data.filter (inCountries countries)
  let recent := match (df.filterMap Row.year).max? with
    | some m => df.filter (fun r =>
        match r.year with
        | some y => decide (m - n_years + 1 ≤ y)
        | none => false)
    | none => []
  let rows := (recent.filterMap Row.country).dedup
  let cols := isort ascInt ((recent.filterMap Row.year).dedup)
  (v, .heat
    { rows := rows, cols := cols,
      z := rows.map (fun c => cols.map (fun y =>
        if recent.any (fun r => r.country = some c && r.year = some y) then
          some (cySum recent c y)
        else none)) }
    ("CO2 Emissions Heatmap (Last " ++ toString n_years ++ " Years)"))

/-! ### Shared lemmas -/

theorem insertBy_perm (le : α → α → Bool) (x : α) (l : List α) :
    (insertBy le x l).Perm (x :: l) := by
  induction l with
  | nil => simp [insertBy]
  | cons y ys ih =>
      by_cases h : le x y
      · simp [insertBy, h]
      · simp only [insertBy, h, Bool.false_eq_true, not_false_eq_true, ite_false]
        exact (List.Perm.cons y ih).trans (List.Perm.swap x y ys)

theorem isort_perm (le : α → α → Bool) (l : List α) : (isort le l).Perm l := by
  induction l with
  | nil => simp [isort]
  | cons y ys ih =>
      simpa [isort] using (insertBy_perm le y _).trans (List.Perm.cons y ih)

theorem descQ_total (a b : String × ℚ) : descQ a b = true ∨ descQ b a = true := by
  unfold descQ
  rcases le_total b.2 a.2 with h | h
  · exact Or.inl (decide_eq_true h)
  · exact Or.inr (decide_eq_true h)

theorem descQ_trans (a b c : String × ℚ)
    (h1 : descQ a b = true) (h2 : descQ b c = true) : descQ a c = true := by
  unfold descQ at *
  exact decide_eq_true (le_trans (of_decide_eq_true h2) (of_decide_eq_true h1))

theorem ascInt_total (a b : Int) : ascInt a b = true ∨ ascInt b a = true := by
  unfold ascInt
  rcases le_total a b with h | h
  · exact Or.inl (decide_eq_true h)
  · exact Or.inr (decide_eq_true h)

theorem ascInt_trans (a b c : Int)
    (h1 : ascInt a b = true) (h2 : ascInt b c = true) : ascInt a c = true := by
  unfold ascInt at *
  exact decide_eq_true (le_trans (of_decide_eq_true h1) (of_decide_eq_true h2))

theorem fleB_total (a b : FVal) : fleB a b = true ∨ fleB b a = true := by
  cases a <;> cases b <;> simp [fleB] <;> exact le_total _ _

theorem fleB_trans (a b c : FVal)
    (h1 : fleB a b = true) (h2 : fleB b c = true) : fleB a c = true := by
  cases a <;> cases b <;> cases c <;> simp_all [fleB] <;> exact le_trans h1 h2

theorem descF_total (a b : String × FVal) : descF a b = true ∨ descF b a = true := by
  unfold descF
  exact fleB_total b.2 a.2

theorem descF_trans (a b c : String × FVal)
    (h1 : descF a b = true) (h2 : descF b c = true) : descF a c = true := by
  unfold descF at *
  exact fleB_trans c.2 b.2 a.2 h2 h1

theorem foldl_max_le (as : List Int) (a : Int) :
    a ≤ as.foldl max a ∧ ∀ x ∈ as, x ≤ as.foldl max a := by
  induction as generalizing a with
  | nil => simp
  | cons b bs ih =>
      refine ⟨le_trans (le_max_left a b) (ih (max a b)).1, ?_⟩
      intro x hx
      rcases List.mem_cons.mp hx with rfl | hx
      · exact le_trans (le_max_right a x) (ih (max a x)).1
      · exact (ih (max a b)).2 x hx

theorem le_of_mem_max? {l : List Int} {m x : Int}
    (hm : l.max? = some m) (hx : x ∈ l) : x ≤ m := by
  cases l with
  | nil => cases hx
  | cons a as =>
      simp [List.max?] at hm
      subst hm
      rcases List.mem_cons.mp hx with rfl | hx
      · exact (foldl_max_le as x).1
      · exact (foldl_max_le as a).2 x hx

theorem sum_map_add (m : List α) (f g : α → ℚ) :
    (m.map (fun r => f r + g r)).sum = (m.map f).sum + (m.map g).sum := by
  induction m with
  | nil => simp
  | cons a t ih => simp [ih]; ring

theorem sum_comm_list (K : List β) (m : List γ) (g : β → γ → ℚ) :
    (K.map (fun s => (m.map (g s)).sum)).sum
      = (m.map (fun r => (K.map (fun s => g s r)).sum)).sum := by
  induction K with
  | nil => simp
  | cons s0 t ih =>
      simp only [List.map_cons, List.sum_cons, ih]
      rw [← sum_map_add]

theorem filter_map_sum (m : List α) (p : α → Bool) (f : α → ℚ) :
    ((m.filter p).map f).sum = (m.map (fun r => if p r then f r else 0)).sum := by
  induction m with
  | nil => simp
  | cons a t ih =>
      by_cases h : p a
      · simp [List.filter_cons, h, ih]
      · simp [List.filter_cons, h, ih]

theorem sum_ite_zero_of_not_mem [DecidableEq β] {K : List β} {s0 : β} (x : ℚ)
    (h : s0 ∉ K) : (K.map (fun s => if s0 = s then x else 0)).sum = 0 := by
  induction K with
  | nil => simp
  | cons a t ih =>
      have hne : s0 ≠ a := fun he => h (he ▸ List.mem_cons_self a t)
      have hnt : s0 ∉ t := fun ht => h (List.mem_cons_of_mem a ht)
      simp [hne, ih hnt]

theorem sum_ite_eq_of_nodup [DecidableEq β] {K : List β} {s0 : β} (x : ℚ)
    (hnd : K.Nodup) (hmem : s0 ∈ K) :
    (K.map (fun s => if s0 = s then x else 0)).sum = x := by
  induction K with
  | nil => cases hmem
  | cons a t ih =>
      rcases List.mem_cons.mp hmem with rfl | hmem
      · have hnt : s0 ∉ t := (List.nodup_cons.mp hnd).1
        simp [sum_ite_zero_of_not_mem x hnt]
      · have hne : s0 ≠ a := fun he => (List.nodup_cons.mp hnd).1 (he ▸ hmem)
        simp [hne, ih (List.nodup_cons.mp hnd).2 hmem]

/-- Partition of a table's total value by sector: when every row has a
non-null sector, summing the per-sector group sums recovers the plain
column sum. -/
theorem sum_sectorKeys (m : List Row) (h : ∀ r ∈ m, r.sector.isSome) :
    ((sectorKeys m).map (fun s => sectorSum m s)).sum = (m.map valD).sum := by
  have hcell : ∀ s, sectorSum m s
      = (m.map (fun r => if r.sector = some s then valD r else 0)).sum := by
    intro s
    unfold sectorSum
    rw [filter_map_sum]
    simp only [decide_eq_true_eq]
  calc ((sectorKeys m).map (fun s => sectorSum m s)).sum
      = ((sectorKeys m).map (fun s =>
          (m.map (fun r => if r.sector = some s then valD r else 0)).sum)).sum := by
        apply congrArg
        exact List.map_congr_left (fun s _ => hcell s)
    _ = (m.map (fun r =>
          ((sectorKeys m).map (fun s => if r.sector = some s then valD r else 0)).sum)).sum :=
        sum_comm_list _ _ _
    _ = (m.map valD).sum := by
        apply congrArg
        apply List.map_congr_left
        intro r hr
        rcases Option.isSome_iff_exists.mp (h r hr) with ⟨s0, hs0⟩
        have hmem : s0 ∈ sectorKeys m :=
          List.mem_dedup.mpr (List.mem_filterMap.mpr ⟨r, hr, hs0⟩)
        have : ((sectorKeys m).map (fun s => if r.sector = some s then valD r else 0))
            = ((sectorKeys m).map (fun s => if s0 = s then valD r else 0)) := by
          apply List.map_congr_left
          intro s _
          rw [hs0]
          simp [Option.some.injEq]
        rw [this]
        exact sum_ite_eq_of_nodup (valD r) (List.nodup_dedup _) hmem

/-! ### Concrete tables for witnesses and counterexamples -/

def exDate (y : Int) : Date := ⟨1, 1, y⟩

/-- A cleaned-shape row: non-null country/date/value, year derived from
the date. -/
def mkRow (c : String) (s : Option String) (y : Int) (q : ℚ) : Row :=
  { country := some c, sector := s, date := some (exDate y),
    year := some y, month := some 1, value := some q }

def exT2 : List Row :=
  [mkRow "A" (some "Energy") 2020 2, mkRow "A" (some "Energy") 2021 3,
   mkRow "B" (some "Energy") 2020 1]

/-! ### Supporting lemmas about the processor -/

theorem mem_topEmitters_none {l : List Row} {n : Nat} {p : String × ℚ}
    (hp : p ∈ get_top_emitters l n none) : p.2 = countrySum l p.1 := by
  simp only [get_top_emitters] at hp
  have h1 := List.take_subset _ _ hp
  have h2 := (mem_isort _ _ _).mp h1
  unfold groupByCountrySum at h2
  rcases List.mem_map.mp h2 with ⟨c, _, rfl⟩
  rfl

theorem coerce_strip_coerce (r : Row) :
    coerceRow (stripRow (coerceRow r)) = stripRow (coerceRow r) := by
  cases r
  simp [coerceRow, stripRow]

theorem rowValid_stripRow (r : Row) : rowValid (stripRow r) = rowValid r := by
  cases r with
  | mk c s d y m v =>
      cases c <;> cases s <;> simp [rowValid, stripRow]

theorem stripRow_idem (r : Row) : stripRow (stripRow r) = stripRow r := by
  cases r with
  | mk c s d y m v =>
      cases c <;> cases s <;> simp [stripRow, pyStrip_idem]

theorem clean_member_shape {raw : List Row} {r : Row}
    (hr : r ∈ (clean_data raw).1) :
    ∃ r0 ∈ raw, r = stripRow (coerceRow r0) ∧ rowValid (coerceRow r0) = true := by
  simp only [clean_data] at hr
  rcases List.mem_map.mp hr with ⟨r1, hr1, rfl⟩
  rcases List.mem_filter.mp hr1 with ⟨hr1m, hval⟩
  rcases List.mem_map.mp hr1m with ⟨r0, hr0, rfl⟩
  exact ⟨r0, hr0, rfl, hval⟩

/-! ### Claim theorems -/

/-- Claim C2: for every input table and every `n`, `get_top_emitters`
without a year filter returns at most `n` rows, sorted by
`total_emissions` descending, and each returned row's total equals the
sum of `value` over all input rows with that row's country. -/
theorem topEmitters_spec (l : List Row) (n : Nat) :
    (get_top_emitters l n none).length ≤ n ∧
    (get_top_emitters l n none).Pairwise (fun a b => b.2 ≤ a.2) ∧
    ∀ p ∈ get_top_emitters l n none, p.2 = countrySum l p.1 := by
  refine ⟨?_, ?_, fun p hp => mem_topEmitters_none hp⟩
  · simp only [get_top_emitters]
    exact List.length_take_le n _
  · simp only [get_top_emitters]
    have hs := sortedBy_isort descQ descQ_total descQ_trans (groupByCountrySum l)
    have hp := List.Pairwise.sublist (List.take_sublist n _) hs
    exact hp.imp (fun hab => of_decide_eq_true hab)

theorem topEmitters_eval : get_top_emitters exT2 2 none = [("A", 5), ("B", 1)] := by
  simp [get_top_emitters, groupByCountrySum, countryKeys, countrySum, isort, insertBy,
        descQ, valD, exT2, mkRow, List.dedup, List.pwFilter, exDate]
  norm_num

theorem topEmitters_spec_witness :
    ("A", (5 : ℚ)) ∈ get_top_emitters exT2 2 none ∧
    ("A", (5 : ℚ)).2 = countrySum exT2 ("A", (5 : ℚ)).1 :=
  ⟨by rw [topEmitters_eval]; exact List.mem_cons_self _ _,
   (topEmitters_spec exT2 2).2.2 ("A", 5)
     (by rw [topEmitters_eval]; exact List.mem_cons_self _ _)⟩

/-- Claim C3: every row surviving `clean_data` has non-null `country`,
`date` and `value`; surviving rows are passed through (coerced and
whitespace-stripped), never repaired from invalid ones; and the number
of dropped rows is returned as information (the printed
`initial_rows - len(df)`), not an error. -/
theorem clean_drops_nulls (raw : List Row) :
    (∀ r ∈ (clean_data raw).1,
        r.country.isSome = true ∧ r.date.isSome = true ∧ r.value.isSome = true ∧
        ∃ r0 ∈ raw, r = stripRow (coerceRow r0)) ∧
    (clean_data raw).2 = raw.length - (clean_data raw).1.length := by
  constructor
  · intro r hr
    rcases clean_member_shape hr with ⟨r0, hr0, rfl, hval⟩
    simp only [rowValid, Bool.and_eq_true] at hval
    rcases hval with ⟨⟨hc, hd⟩, hv⟩
    refine ⟨?_, hd, hv, r0, hr0, rfl⟩
    rcases hoc : (coerceRow r0).country with _ | c
    · rw [hoc] at hc; cases hc
    · simp [stripRow, hoc]
  · simp [clean_data]

theorem clean_eval :
    (clean_data exT2).1 = exT2 ∧ (clean_data exT2).2 = 0 := by
  constructor
  · simp [clean_data, exT2, mkRow, coerceRow, stripRow, rowValid, exDate, pyStrip,
          stripChars, stripL, stripR, List.dropWhile]
  · simp [clean_data, exT2, mkRow, coerceRow, rowValid, exDate]

theorem clean_drops_nulls_witness :
    (mkRow "A" (some "Energy") 2020 2).country.isSome = true ∧
    (mkRow "A" (some "Energy") 2020 2).date.isSome = true ∧
    (mkRow "A" (some "Energy") 2020 2).value.isSome = true ∧
    ∃ r0 ∈ exT2, mkRow "A" (some "Energy") 2020 2 = stripRow (coerceRow r0) :=
  (clean_drops_nulls exT2).1 (mkRow "A" (some "Energy") 2020 2)
    (by rw [clean_eval.1]; exact List.mem_cons_self _ _)

/-- Claim C5: `clean_data` is idempotent — re-cleaning an already-cleaned
table returns it unchanged and reports zero dropped rows. -/
theorem clean_idempotent (raw : List Row) :
    clean_data (clean_data raw).1 = ((clean_data raw).1, 0) := by
  have hfix : ∀ r ∈ (clean_data raw).1,
      coerceRow r = r ∧ rowValid r = true ∧ stripRow r = r := by
    intro r hr
    rcases clean_member_shape hr with ⟨r0, _, rfl, hval⟩
    refine ⟨coerce_strip_coerce r0, ?_, ?_⟩
    · rw [rowValid_stripRow]
      exact hval
    · exact stripRow_idem (coerceRow r0)
  have hmap : (clean_data raw).1.map coerceRow = (clean_data raw).1 := by
    rw [List.map_congr_left (fun r hr => (hfix r hr).1), List.map_id']
  have hfilter : (clean_data raw).1.filter rowValid = (clean_data raw).1 :=
    List.filter_eq_self.mpr (fun r hr => (hfix r hr).2.1)
  have hstrip : (clean_data raw).1.map stripRow = (clean_data raw).1 := by
    rw [List.map_congr_left (fun r hr => (hfix r hr).2.2), List.map_id']
  show ((((clean_data raw).1.map coerceRow).filter rowValid).map stripRow,
        ((clean_data raw).1.map coerceRow).length
          - (((clean_data raw).1.map coerceRow).filter rowValid).length)
      = ((clean_data raw).1, 0)
  rw [hmap, hfilter, hstrip, Nat.sub_self]

/-- Claim C6: `add_derived_metrics` with neither a population nor a GDP
table keeps the row count and leaves `country`, `sector` and `value`
untouched; it adds `total_emissions` and none of the other derived
columns. -/
theorem deriveMetrics_frame (l : List Row) :
    (add_derived_metrics l none none).length = l.length ∧
    (add_derived_metrics l none none).map (fun r => (r.country, r.sector, r.value))
      = l.map (fun r => (r.country, r.sector, r.value)) ∧
    (add_derived_metrics l none none).map (fun r =>
        (r.population, r.emissions_per_capita, r.gdp, r.emission_intensity))
      = l.map (fun _ => (none, none, none, none)) := by
  refine ⟨?_, ?_, ?_⟩
  · simp [add_derived_metrics, addTotals]
  · simp only [add_derived_metrics, addTotals, List.map_map]
    rfl
  · simp only [add_derived_metrics, addTotals, List.map_map]
    rfl

/-! ### C1: growth rates at a zero or null prior-year total -/

theorem withPrev_mem {l : List Row} {c : String} {ys : List Int} {prev : Option ℚ}
    {e : GrowthRow} (he : e ∈ withPrev l c ys prev) :
    e.country = c ∧ e.growth = growthOf e.prev e.value := by
  induction ys generalizing prev with
  | nil => cases he
  | cons y t ih =>
      rcases List.mem_cons.mp he with rfl | he
      · exact ⟨rfl, rfl⟩
      · exact ih he

theorem find?_first_block (l : List Row) (cs : List String) (c : String) (e : GrowthRow)
    (h : (cs.flatMap (fun c0 => withPrev l c0 (yearsAsc l c0) none)).find?
          (fun x => decide (x.country = c)) = some e) : e.prev = none := by
  induction cs with
  | nil => simp at h
  | cons c0 rest ih =>
      rw [List.flatMap_cons, List.find?_append] at h
      rcases hb : (withPrev l c0 (yearsAsc l c0) none).find?
          (fun x => decide (x.country = c)) with _ | e1
      · rw [hb, Option.none_or] at h
        exact ih h
      · rw [hb] at h
        rw [show (some e1).or ((rest.flatMap fun c0 =>
              withPrev l c0 (yearsAsc l c0) none).find?
              (fun x => decide (x.country = c))) = some e1 from rfl] at h
        cases h
        cases hys : yearsAsc l c0 with
        | nil => rw [hys] at hb; cases hb
        | cons y t =>
            rw [hys] at hb
            by_cases hc0 : c0 = c
            · rw [show withPrev l c0 (y :: t) none
                    = { country := c0, year := y, value := cySum l c0 y, prev := none,
                        growth := growthOf none (cySum l c0 y) }
                      :: withPrev l c0 t (some (cySum l c0 y)) from rfl,
                  List.find?_cons_of_pos _ (by simp [hc0])] at hb
              cases hb
              rfl
            · have : ∀ x ∈ withPrev l c0 (y :: t) none,
                  ¬ (decide (x.country = c) = true) := by
                intro x hx
                simp only [decide_eq_true_eq]
                rw [(withPrev_mem hx).1]
                exact hc0
              rw [List.find?_eq_none.mpr this] at hb
              cases hb

def exT1 : List Row :=
  [mkRow "A" (some "Energy") 2000 0, mkRow "A" (some "Energy") 2001 5]

theorem growthRates_exT1_eval :
    calculate_growth_rates exT1 =
      [{ country := "A", year := 2000, value := 0, prev := none, growth := FVal.nan },
       { country := "A", year := 2001, value := 5, prev := some 0,
         growth := FVal.inf }] := by
  simp [calculate_growth_rates, cyCountries, yearsAsc, withPrev, cySum, growthOf,
        isort, insertBy, ascInt, exT1, mkRow, exDate, valD, List.dedup, List.pwFilter]

/-- Claim C1 counterexample: on a table where country A's totals are 0 in
2000 and 5 in 2001, the growth rate for 2001 — whose prior-year total is
zero — is positive infinity, not null, refuting "never infinity". -/
theorem growthRates_zero_prior_counterexample :
    calculate_growth_rates exT1 =
      [{ country := "A", year := 2000, value := 0, prev := none, growth := FVal.nan },
       { country := "A", year := 2001, value := 5, prev := some 0, growth := FVal.inf }] ∧
    FVal.inf ≠ FVal.nan :=
  ⟨growthRates_exT1_eval, by decide⟩

/-- Claim C1 (amended): `calculate_growth_rates` never raises; the growth
rate is null for a country's first observed year (null prior).  When the
prior-year total is zero the result is null only if the current total is
also zero; a nonzero current total gives a signed infinity, not null. -/
theorem growthRates_null_denominator (l : List Row) :
    (∀ e ∈ calculate_growth_rates l,
      (e.prev = none → e.growth = FVal.nan) ∧
      (e.prev = some 0 → e.growth =
        if e.value = 0 then FVal.nan
        else if 0 < e.value then FVal.inf else FVal.neginf)) ∧
    (∀ c e, (calculate_growth_rates l).find? (fun x => decide (x.country = c)) = some e →
      e.prev = none) := by
  constructor
  · intro e he
    unfold calculate_growth_rates at he
    rcases List.mem_flatMap.mp he with ⟨c0, _, hbl⟩
    have hg := (withPrev_mem hbl).2
    constructor
    · intro hp
      rw [hg, hp]
      rfl
    · intro hp
      rw [hg, hp]
      simp [growthOf]
  · intro c e h
    exact find?_first_block l _ c e h

def g0 : GrowthRow :=
  { country := "A", year := 2000, value := 0, prev := none, growth := FVal.nan }

def g1 : GrowthRow :=
  { country := "A", year := 2001, value := 5, prev := some 0, growth := FVal.inf }

theorem growthRates_null_denominator_witness :
    g1.growth = (if g1.value = 0 then FVal.nan
       else if 0 < g1.value then FVal.inf else FVal.neginf) ∧
    g0.prev = none :=
  ⟨((growthRates_null_denominator exT1).1 _
      (by rw [growthRates_exT1_eval]; exact List.mem_cons_of_mem _ (List.mem_cons_self _ _))).2
      rfl,
   (growthRates_null_denominator exT1).2 "A" _
      (by rw [growthRates_exT1_eval]; rfl)⟩

/-! ### C4: sectoral breakdown totals versus the country total -/

def exT4 : List Row := [mkRow "A" none 2020 5]

theorem sectoral_exT4_eval :
    get_sectoral_breakdown exT4 (some "A") = [] ∧
    get_top_emitters exT4 10 none = [("A", 5)] := by
  constructor
  · simp [get_sectoral_breakdown, sectorKeys, sectorSum, isort, insertBy, descQ, exT4,
          mkRow, exDate, valD, List.dedup, List.pwFilter]
  · simp [get_top_emitters, groupByCountrySum, countryKeys, countrySum, isort, insertBy,
          descQ, exT4, mkRow, exDate, valD, List.dedup, List.pwFilter]

/-- Claim C4 counterexample: a cleaned table may contain rows with a null
sector (`clean_data` only drops null `country`/`date`/`value`), and
`groupby('sector')` silently drops them: for the one-row table with
country A, null sector and value 5, the sectoral-breakdown totals sum to
0 while `get_top_emitters` reports 5 for A. -/
theorem sectoral_total_counterexample :
    ((get_sectoral_breakdown exT4 (some "A")).map (fun p => p.2)).sum = 0 ∧
    get_top_emitters exT4 10 none = [("A", 5)] ∧ (0 : ℚ) ≠ 5 :=
  ⟨by rw [sectoral_exT4_eval.1]; rfl, sectoral_exT4_eval.2, by norm_num⟩

/-- Claim C4 (amended): for a non-empty country name all of whose rows
carry a non-null sector, the sectoral-breakdown totals sum to exactly
that country's `get_top_emitters` total. -/
theorem sectoral_matches_top (l : List Row) (c : String) (n : Nat) (t : ℚ)
    (hsec : ∀ r ∈ l, r.country = some c → r.sector.isSome = true)
    (hc : c ≠ "")
    (ht : (c, t) ∈ get_top_emitters l n none) :
    ((get_sectoral_breakdown l (some c)).map (fun p => p.2)).sum = t := by
  have htot : t = countrySum l c := mem_topEmitters_none ht
  simp only [get_sectoral_breakdown]
  rw [if_pos hc]
  have hperm := (isort_perm descQ
      ((sectorKeys (l.filter (fun r => r.country = some c))).map
        (fun s => (s, sectorSum (l.filter (fun r => r.country = some c)) s)))).map
      (fun p : String × ℚ => p.2)
  rw [hperm.sum_eq, List.map_map]
  have hall : ∀ r ∈ l.filter (fun r => r.country = some c), r.sector.isSome = true := by
    intro r hr
    rcases List.mem_filter.mp hr with ⟨hrl, hrc⟩
    exact hsec r hrl (of_decide_eq_true hrc)
  have := sum_sectorKeys (l.filter (fun r => r.country = some c)) hall
  rw [show ((fun p : String × ℚ => p.2) ∘ fun s =>
        (s, sectorSum (l.filter (fun r => r.country = some c)) s))
      = fun s => sectorSum (l.filter (fun r => r.country = some c)) s from rfl]
  rw [this, htot]
  rfl

theorem sectoral_matches_top_witness :
    ((get_sectoral_breakdown exT2 (some "A")).map (fun p => p.2)).sum = 5 :=
  sectoral_matches_top exT2 "A" 2 5 (by decide) (by decide)
    (by rw [topEmitters_eval]; exact List.mem_cons_self _ _)

/-- Claim C10: `create_comparison_chart` with a metric other than
`'total'` or `'average'` leaves `data` unassigned and fails with an
unbound-local error; it neither returns a chart nor falls back to a
default metric. -/
theorem comparison_unbound (v : Visualizer) (cs : List String) (m : String)
    (h1 : m ≠ "total") (h2 : m ≠ "average") :
    (create_comparison_chart v cs m).2 = Except.error PyError.unboundLocal := by
  simp [create_comparison_chart, h1, h2]

theorem comparison_unbound_witness :
    ("median" ≠ "total" ∧ "median" ≠ "average") ∧
    (create_comparison_chart ⟨exT2, "Reds"⟩ ["A"] "median").2
      = Except.error PyError.unboundLocal :=
  ⟨⟨by decide, by decide⟩,
   comparison_unbound ⟨exT2, "Reds"⟩ ["A"] "median" (by decide) (by decide)⟩

/-! ### C9: chart operations never mutate `self.data` -/

/-- Claim C9: every chart-producing operation of `CO2Visualizer` returns
the visualizer state it was given unchanged (each works on a copy or a
freshly derived frame), and calling an operation again on the state it
returned yields the identical result — the operations are pure and may
be called repeatedly and in any order. -/
theorem visualizer_no_mutation (v : Visualizer) :
    (∀ n y, (create_top_emitters_bar v n y).1 = v ∧
      create_top_emitters_bar (create_top_emitters_bar v n y).1 n y
        = create_top_emitters_bar v n y) ∧
    ((create_global_trend v).1 = v ∧
      create_global_trend (create_global_trend v).1 = create_global_trend v) ∧
    (∀ cs, (create_country_trends v cs).1 = v ∧
      create_country_trends (create_country_trends v cs).1 cs
        = create_country_trends v cs) ∧
    (∀ c, (create_sectoral_breakdown v c).1 = v ∧
      create_sectoral_breakdown (create_sectoral_breakdown v c).1 c
        = create_sectoral_breakdown v c) ∧
    ((create_sectoral_trend v).1 = v ∧
      create_sectoral_trend (create_sectoral_trend v).1 = create_sectoral_trend v) ∧
    ((create_animated_map v).1 = v ∧
      create_animated_map (create_animated_map v).1 = create_animated_map v) ∧
    (∀ n, (create_growth_rate_chart v n).1 = v ∧
      create_growth_rate_chart (create_growth_rate_chart v n).1 n
        = create_growth_rate_chart v n) ∧
    (∀ cs y, (create_pie_chart v cs y).1 = v ∧
      create_pie_chart (create_pie_chart v cs y).1 cs y = create_pie_chart v cs y) ∧
    (∀ cs m, (create_comparison_chart v cs m).1 = v ∧
      create_comparison_chart (create_comparison_chart v cs m).1 cs m
        = create_comparison_chart v cs m) ∧
    (∀ cs n, (create_heatmap v cs n).1 = v ∧
      create_heatmap (create_heatmap v cs n).1 cs n = create_heatmap v cs n) := by
  have hcmp : ∀ cs m, (create_comparison_chart v cs m).1 = v := by
    intro cs m
    by_cases h1 : m = "total"
    · simp [create_comparison_chart, h1]
    · by_cases h2 : m = "average"
      · simp [create_comparison_chart, h1, h2]
      · simp [create_comparison_chart, h1, h2]
  refine ⟨fun n y => ⟨rfl, rfl⟩, ⟨rfl, rfl⟩, fun cs => ⟨rfl, rfl⟩,
    fun c => ⟨rfl, rfl⟩, ⟨rfl, rfl⟩, ⟨rfl, rfl⟩, fun n => ⟨rfl, rfl⟩,
    fun cs y => ⟨rfl, rfl⟩, fun cs m => ⟨hcmp cs m, by rw [hcmp cs m]⟩,
    fun cs n => ⟨rfl, rfl⟩⟩

/-! ### C7: the growth-rate ranking chart -/

/-- The claim's wording of the averaging window: entries of the yearly
growth table whose year lies between `max year − 5` and `max year`,
both inclusive. -/
def specWindowEntries (l : List Row) : List GrowthRow :=
  match ((calculate_growth_rates l).map GrowthRow.year).max? with
  | some m => (calculate_growth_rates l).filter
      (fun e => decide (m - 5 ≤ e.year) && decide (e.year ≤ m))
  | none => []

/-- The claim's wording of the ranking: per country of the window,
average its growth rates over the window with nulls excluded (`fmean`
filters them out rather than counting zero), sort descending, keep the
top `n`. -/
def specGrowthRanking (l : List Row) (n : Nat) : List (String × FVal) :=
  ((isort descF (((specWindowEntries l).map GrowthRow.country).dedup.map (fun c =>
    (c, fmean (((specWindowEntries l).filter
      (fun e => e.country = c)).map GrowthRow.growth))))).take n)

theorem specWindow_eq_recent (l : List Row) :
    specWindowEntries l = recentGrowth l := by
  unfold specWindowEntries recentGrowth
  cases hm : ((calculate_growth_rates l).map GrowthRow.year).max? with
  | none => simp only [hm]
  | some m =>
      simp only [hm]
      apply List.filter_congr
      intro e he
      have hy : e.year ≤ m :=
        le_of_mem_max? hm (List.mem_map_of_mem GrowthRow.year he)
      simp [hy]

theorem specGrowthRanking_eq (l : List Row) (n : Nat) :
    specGrowthRanking l n = (isort descF (avgGrowth l)).take n := by
  unfold specGrowthRanking avgGrowth
  rw [specWindow_eq_recent]

theorem fmean_append_nan (vs : List FVal) : fmean (vs ++ [FVal.nan]) = fmean vs := by
  unfold fmean
  rw [List.filter_append]
  simp

/-- Claim C7: `create_growth_rate_chart` computes exactly the ranking the
claim describes — averages of each country's growth rates over the years
from `max year − 5` through `max year` inclusive, nulls excluded from
the average (appending a null value to a series never changes `fmean`,
so nulls are not counted as zeros), sorted descending with at most `n`
countries kept. -/
theorem growth_chart_spec (v : Visualizer) (n : Nat) :
    (create_growth_rate_chart v n).2 =
      Chart.growthbar (specGrowthRanking v.data n)
        ("Top " ++ toString n ++
         " Countries by Average CO2 Growth Rate (Last 5 Years)") ∧
    (specGrowthRanking v.data n).length ≤ n ∧
    (specGrowthRanking v.data n).Pairwise (fun a b => fleB b.2 a.2 = true) ∧
    (∀ vs : List FVal, fmean (vs ++ [FVal.nan]) = fmean vs) := by
  refine ⟨?_, ?_, ?_, fmean_append_nan⟩
  · rw [specGrowthRanking_eq]
    rfl
  · rw [specGrowthRanking_eq]
    exact List.length_take_le n _
  · rw [specGrowthRanking_eq]
    have hs := sortedBy_isort descF descF_total descF_trans (avgGrowth v.data)
    exact (List.Pairwise.sublist (List.take_sublist n _) hs).imp (fun h => h)

/-! ### C8: the heatmap window and pivot -/

/-- The claim's wording of the heatmap: keep rows of the selected
countries whose year lies in the trailing window `max year − n + 1`
through `max year`, both inclusive (`max year` over the selected
countries' data), then pivot to a country × year matrix whose cell is
the summed value, or null — not zero — when that country has no
observation in that year. -/
def specHeatmap (l : List Row) (cs : List String) (n : Int) : Heatmap :=
  match ((l.filter (inCountries cs)).filterMap Row.year).max? with
  | none => { rows := [], cols := [], z := [] }
  | some m =>
      let W := l.filter (fun r => inCountries cs r &&
        match r.year with
        | some y => decide (m - n + 1 ≤ y) && decide (y ≤ m)
        | none => false)
      { rows := (W.filterMap Row.country).dedup,
        cols := isort ascInt ((W.filterMap Row.year).dedup),
        z := ((W.filterMap Row.country).dedup).map (fun c =>
          (isort ascInt ((W.filterMap Row.year).dedup)).map (fun y =>
            if W.any (fun r => r.country = some c && r.year = some y) then
              some (cySum W c y)
            else none)) }

theorem heat_recent_eq (l : List Row) (cs : List String) (n m : Int)
    (hm : ((l.filter (inCountries cs)).filterMap Row.year).max? = some m) :
    (l.filter (inCountries cs)).filter (fun r =>
        match r.year with
        | some y => decide (m - n + 1 ≤ y)
        | none => false)
      = l.filter (fun r => inCountries cs r &&
        match r.year with
        | some y => decide (m - n + 1 ≤ y) && decide (y ≤ m)
        | none => false) := by
  rw [List.filter_filter]
  apply List.filter_congr
  intro r hr
  cases hy : r.year with
  | none => simp [hy]
  | some y =>
      cases hin : inCountries cs r with
      | false => simp [hy, hin]
      | true =>
          have hmem : y ∈ (l.filter (inCountries cs)).filterMap Row.year :=
            List.mem_filterMap.mpr ⟨r, List.mem_filter.mpr ⟨hr, hin⟩, hy⟩
          have hle : y ≤ m := le_of_mem_max? hm hmem
          simp [hy, hin, hle]

/-- Claim C8: `create_heatmap` builds exactly the matrix the claim
describes — rows restricted to the selected countries, years restricted
to the trailing `n`-year window ending at the maximum year of the
selected data, and each cell holding the summed value or null (never
zero) when the country has no observation in that year; moreover every
row label is a selected country and every column year lies inside the
window. -/
theorem heatmap_spec (v : Visualizer) (cs : List String) (n : Int) :
    (create_heatmap v cs n).2 =
      Chart.heat (specHeatmap v.data cs n)
        ("CO2 Emissions Heatmap (Last " ++ toString n ++ " Years)") ∧
    (∀ c ∈ (specHeatmap v.data cs n).rows, c ∈ cs) ∧
    (∀ y ∈ (specHeatmap v.data cs n).cols,
      ∃ m, ((v.data.filter (inCountries cs)).filterMap Row.year).max? = some m ∧
        m - n + 1 ≤ y ∧ y ≤ m) := by
  refine ⟨?_, ?_, ?_⟩
  · cases hm : ((v.data.filter (inCountries cs)).filterMap Row.year).max? with
    | none =>
        simp only [create_heatmap, specHeatmap, hm]
        simp [isort]
    | some m =>
        simp only [create_heatmap, specHeatmap, hm]
        rw [heat_recent_eq v.data cs n m hm]
  · intro c hc
    cases hm : ((v.data.filter (inCountries cs)).filterMap Row.year).max? with
    | none => simp only [specHeatmap, hm] at hc; cases hc
    | some m =>
        simp only [specHeatmap, hm] at hc
        rcases List.mem_filterMap.mp (List.mem_dedup.mp hc) with ⟨r, hrW, hrc⟩
        rcases List.mem_filter.mp hrW with ⟨_, hcond⟩
        simp only [Bool.and_eq_true] at hcond
        rcases hcond with ⟨hin, _⟩
        unfold inCountries at hin
        rw [hrc] at hin
        exact of_decide_eq_true hin
  · intro y hy
    cases hm : ((v.data.filter (inCountries cs)).filterMap Row.year).max? with
    | none => simp only [specHeatmap, hm] at hy; cases hy
    | some m =>
        simp only [specHeatmap, hm] at hy
        refine ⟨m, rfl, ?_⟩
        rcases List.mem_filterMap.mp
            (List.mem_dedup.mp ((mem_isort _ _ _).mp hy)) with ⟨r, hrW, hry⟩
        rcases List.mem_filter.mp hrW with ⟨_, hcond⟩
        simp only [Bool.and_eq_true] at hcond
        rcases hcond with ⟨_, hwnd⟩
        rw [hry] at hwnd
        simp only [Bool.and_eq_true] at hwnd
        rcases hwnd with ⟨h1, h2⟩
        exact ⟨of_decide_eq_true h1, of_decide_eq_true h2⟩

def exT8 : List Row := [mkRow "A" none 2020 5, mkRow "B" none 2021 7]

theorem specHeatmap_exT8_eval :
    (specHeatmap exT8 ["A", "B"] 2).rows = ["A", "B"] ∧
    (specHeatmap exT8 ["A", "B"] 2).cols = [2020, 2021] := by
  constructor
  · simp [specHeatmap, exT8, mkRow, exDate, inCountries, isort, insertBy, ascInt,
          List.dedup, List.pwFilter]
  · simp [specHeatmap, exT8, mkRow, exDate, inCountries, isort, insertBy, ascInt,
          List.dedup, List.pwFilter]

theorem heatmap_spec_witness :
    "A" ∈ ["A", "B"] ∧
    (∃ m, ((exT8.filter (inCountries ["A", "B"])).filterMap Row.year).max? = some m ∧
      m - 2 + 1 ≤ (2020 : Int) ∧ (2020 : Int) ≤ m) :=
  ⟨(heatmap_spec ⟨exT8, "Reds"⟩ ["A", "B"] 2).2.1 "A"
      (by show "A" ∈ (specHeatmap exT8 ["A", "B"] 2).rows
          rw [specHeatmap_exT8_eval.1]
          exact List.mem_cons_self _ _),
   (heatmap_spec ⟨exT8, "Reds"⟩ ["A", "B"] 2).2.2 2020
      (by show (2020 : Int) ∈ (specHeatmap exT8 ["A", "B"] 2).cols
          rw [specHeatmap_exT8_eval.2]
          exact List.mem_cons_self _ _)⟩

end CO2
